import Mathlib

/-
  Verification of the tool-orchestration core of `backend/ai_generator.py`
  (class `AIGenerator`).

  The embedding models the Anthropic messages API as an oracle
  `Client : Nat → Except Exn Response` mapping the index of a
  `messages.create` call (0 = the initial call) to either a response or a
  raised exception.  Every request actually issued is recorded in a trace
  (`List Request`), so theorems can speak about how many backend calls were
  made and with which parameters.  Tool dispatch (`ToolManager.execute_tool`)
  may likewise return a value or raise.  Python exception classes
  `BadRequestError` / `RateLimitError` / `APIError` / other are the four
  constructors of `Exn`; `Exn.str` is `str(e)`.
-/

/-- The four exception classes distinguished by `generate_response`
(lines 109-121): `anthropic.BadRequestError`, `anthropic.RateLimitError`,
other `anthropic.APIError`, and any other `Exception`. -/
inductive Exn where
  | badRequest (msg : String)
  | rateLimit (msg : String)
  | apiError (msg : String)
  | other (msg : String)
  deriving DecidableEq

/-- Python `str(e)`. -/
def Exn.str : Exn → String
  | .badRequest msg => msg
  | .rateLimit msg => msg
  | .apiError msg => msg
  | .other msg => msg

/-- Opaque stand-in for the keyword-argument mapping `content_block.input`. -/
abbrev ToolInput := String

/-- One block of `response.content`: a text block (`.type == "text"`,
carrying `.text`), a tool-use block (`.type == "tool_use"`, carrying
`.id`, `.name`, `.input`), or any other block kind (no `.text`). -/
inductive ContentBlock where
  | text (text : String)
  | tool_use (id : String) (name : String) (input : ToolInput)
  | other
  deriving DecidableEq

/-- A response of `client.messages.create`. -/
structure Response where
  stop_reason : String
  content : List ContentBlock
  deriving DecidableEq

/-- One entry of the tool-results list built at lines 159-174; the dict
`{"type": "tool_result", "tool_use_id": ..., "content": ...}` (`ty` stands
for the reserved key name `type`). -/
structure ToolResult where
  ty : String
  tool_use_id : String
  content : String
  deriving DecidableEq

/-- The `"content"` value of a conversation message: the plain query
string, a model response's content-block list, or a tool-results list. -/
inductive MsgContent where
  | str (s : String)
  | blocks (blocks : List ContentBlock)
  | tool_results (results : List ToolResult)
  deriving DecidableEq

/-- One entry of the running `messages` list. -/
structure Message where
  role : String
  content : MsgContent
  deriving DecidableEq

/-- Opaque stand-in for one tool schema dict passed through to the API. -/
abbrev ToolSchema := String

/-- The keyword arguments of one `messages.create` call.  `tools = none`
models the `"tools"` key being absent (likewise `tool_choice`). -/
structure Request where
  model : String
  temperature : Nat
  max_tokens : Nat
  messages : List Message
  system : String
  tools : Option (List ToolSchema)
  tool_choice : Option String
  deriving DecidableEq

/-- The backend oracle: result of the n-th `messages.create` call. -/
abbrev Client := Nat → Except Exn Response

/-- `tool_manager.execute_tool(name, **input)`, which may raise. -/
structure ToolManager where
  execute_tool : String → ToolInput → Except Exn String

/-- Python whitespace stripped by `str.strip()` (ASCII part). -/
def pyIsSpace (c : Char) : Bool := [' ', '\t', '\n', '\r', '\x0b', '\x0c'].contains c

/-- Python `s.strip()`. -/
def pyStrip (s : String) : String :=
  String.mk (((s.data.dropWhile pyIsSpace).reverse.dropWhile pyIsSpace).reverse)

/-- Python `len(s)` (code points). -/
def pyLen (s : String) : Nat := s.data.length

/-- Whether `pat` occurs at the head of a character list. -/
def leadsWith : List Char → List Char → Bool
  | [], _ => true
  | _ :: _, [] => false
  | a :: as, b :: bs => a == b && leadsWith as bs

/-- Whether `pat` occurs anywhere in a character list. -/
def occursIn (pat : List Char) : List Char → Bool
  | [] => leadsWith pat []
  | b :: bs => leadsWith pat (b :: bs) || occursIn pat bs

/-- Python `pat in s` on strings. -/
def strContains (s pat : String) : Bool := occursIn pat.data s.data

/-- `AIGenerator.SYSTEM_PROMPT` (lines 10-48). -/
def SYSTEM_PROMPT : String := " You are an AI assistant specialized in course materials and educational content with access to comprehensive search and outline tools for course information.

Multi-Step Tool Usage Guidelines:
- **You can make UP TO 2 tool calls total** across multiple API rounds to answer complex queries
- **Course content questions**: Use search_course_content for specific course materials and content
- **Course outline questions**: Use get_course_outline to retrieve complete course structure, lesson lists, and links
- Use tools strategically - each call should build upon previous results
- If you need more specific information after an initial search, make a second, more targeted tool call

Tool Selection Strategy:
- **First call**: Use broad searches or outline requests to understand scope and gather initial information
- **Second call**: Use specific, targeted searches based on first call results if more detail is needed
- Use get_course_outline for: course structure, lesson lists, course outlines, what lessons are available, course overview
- Use search_course_content for: specific lesson content, detailed materials, answers to content-based questions

Multi-Step Reasoning Examples:
- Complex queries: \"Find a course that discusses the same topic as lesson 4 of course X\"
  1. First: Get outline of course X to identify lesson 4 topic
  2. Second: Search for courses discussing that specific topic
- Comparison queries: \"Compare approaches to vector search between courses\"
  1. First: Search for \"vector search\" across all courses
  2. Second: Get specific course outlines for detailed comparison if needed

Response Protocol:
- **General knowledge questions**: Answer using existing knowledge without tools
- **Simple queries**: One tool call may be sufficient
- **Complex queries**: Use up to 2 tool calls to gather comprehensive information
- Analyze results from previous tool calls before deciding on next steps
- Reference previous search results in your reasoning when making additional tool calls
- **No meta-commentary**: Provide direct answers only — no reasoning process, tool explanations, or question-type analysis

All responses must be:
1. **Brief, Concise and focused** - Get to the point quickly
2. **Educational** - Maintain instructional value
3. **Clear** - Use accessible language
4. **Comprehensive** - Use multiple tool calls when needed for complete answers
5. **Example-supported** - Include relevant examples when they aid understanding
Provide only the direct answer to what was asked.
"

/-- `response.content[0].text`: raises `IndexError` on empty content and
`AttributeError` when the first block is not a text block (used at
lines 107 and 216). -/
def firstText (response : Response) : Except Exn String :=
  match response.content with
  | ContentBlock.text t :: _ => Except.ok t
  | _ :: _ => Except.error (Exn.other ("AttributeError"))
  | [] => Except.error (Exn.other ("IndexError"))

/-- Lines 151-174: the per-round tool-execution loop.  Each `tool_use`
block is dispatched by its `name` and `input`; a raised exception is
replaced by the string `"Tool execution error: " ++ str(e)` as that
block's result; non-tool-use blocks contribute nothing. -/
def execute_tool_calls (tool_manager : ToolManager) : List ContentBlock → List ToolResult
  | [] => []
  | ContentBlock.tool_use id name input :: rest =>
    { ty := "tool_result", tool_use_id := id,
      content :=
        match tool_manager.execute_tool name input with
        | Except.ok tool_result => tool_result
        | Except.error e => "Tool execution error: " ++ e.str } ::
      execute_tool_calls tool_manager rest
  | _ :: rest => execute_tool_calls tool_manager rest

/-- Lines 147-178: the message-list update of one tool round — append the
assistant response (full content list), then, if any tool results were
produced, a single user message bundling them. -/
def roundStep (tool_manager : ToolManager) (current_response : Response)
    (messages : List Message) : List Message :=
  let messages := messages ++
    [{ role := "assistant", content := MsgContent.blocks current_response.content }]
  let tool_results := execute_tool_calls tool_manager current_response.content
  if tool_results ≠ [] then
    messages ++ [{ role := "user", content := MsgContent.tool_results tool_results }]
  else messages

/-- `AIGenerator._build_round_system_prompt` (lines 218-234). -/
def _build_round_system_prompt (base_system : String) (current_round max_rounds : Nat) :
    String :=
  let base_prompt := base_system
  let round_guidance :=
    if current_round = 1 then
      "\n\nRound " ++ toString current_round ++ "/" ++ toString max_rounds ++
        ": This is your first opportunity to use tools. Consider if you need broad or specific information."
    else if current_round = 2 then
      "\n\nRound " ++ toString current_round ++ "/" ++ toString max_rounds ++
        ": This is your final tool call opportunity. Make it count - be specific and targeted based on previous results."
    else
      "\n\nRound " ++ toString current_round ++ "/" ++ toString max_rounds ++
        ": No more tool calls available. Provide your final answer based on all previous information."
  base_prompt ++ round_guidance

/-- Lines 180-196: the parameters of the next in-loop `messages.create`
call — base params, accumulated messages, round-annotated system prompt;
tools plus auto tool choice when `current_round < max_rounds`, otherwise
neither key. -/
def buildNextParams (modelName : String) (base_params : Request)
    (messages : List Message) (current_round max_rounds : Nat) : Request :=
  let next_params : Request :=
    { model := modelName, temperature := 0, max_tokens := 800,
      messages := messages,
      system := _build_round_system_prompt base_params.system current_round max_rounds,
      tools := none, tool_choice := none }
  if current_round < max_rounds then
    { next_params with
      tools := some (Option.getD base_params.tools []),
      tool_choice := some "auto" }
  else next_params

/-- First content block whose `.type` is `"text"` and whose text strips to
more than 20 characters (inner loop of `_salvage_partial_response`,
lines 244-250). -/
def firstLongText : List ContentBlock → Option String
  | [] => none
  | ContentBlock.text t :: rest =>
    if pyLen (pyStrip t) > 20 then some t else firstLongText rest
  | _ :: rest => firstLongText rest

/-- The annotation appended to a salvaged text (lines 250 and 252). -/
def interruptNote (error_msg : String) : String :=
  "\n\n(Note: Additional information gathering was interrupted due to an error: " ++
    error_msg ++ ")"

/-- The scan of `_salvage_partial_response` over `reversed(messages)`
(lines 240-254). -/
def salvageScan (error_msg : String) : List Message → String
  | [] =>
    "I encountered an error while processing your request and was unable to provide a complete response: " ++
      error_msg
  | message :: rest =>
    if message.role = "assistant" then
      match message.content with
      | MsgContent.blocks content =>
        match firstLongText content with
        | some t => t ++ interruptNote error_msg
        | none => salvageScan error_msg rest
      | MsgContent.str content =>
        if pyLen (pyStrip content) > 20 then content ++ interruptNote error_msg
        else salvageScan error_msg rest
      | MsgContent.tool_results _ => salvageScan error_msg rest
    else salvageScan error_msg rest

/-- `AIGenerator._salvage_partial_response` (lines 236-254). -/
def _salvage_partial_response (messages : List Message) (error_msg : String) : String :=
  salvageScan error_msg messages.reverse

/-- The `while` loop of `_handle_sequential_tool_execution`
(lines 143-216).  `fuel = max_rounds + 1 - current_round` counts the
remaining admissible loop iterations (`max_rounds = 2`), so `fuel = 0`
is exactly the loop condition `current_round <= max_rounds` failing.
The trace collects every request passed to `messages.create`; the
`Except.error` result models an exception escaping the method (only
possible from `current_response.content[0].text` at line 216). -/
def toolLoop (client : Client) (modelName : String) (tool_manager : ToolManager)
    (base_params : Request) :
    Nat → List Message → Response → Nat → List Request →
      Except Exn String × List Request
  | 0, _, current_response, _, trace => (firstText current_response, trace)
  | fuel + 1, messages, current_response, current_round, trace =>
    if current_response.stop_reason = "tool_use" then
      let messages := roundStep tool_manager current_response messages
      let next_params := buildNextParams modelName base_params messages current_round 2
      match client trace.length with
      | Except.ok next_response =>
        if next_response.stop_reason ≠ "tool_use" then
          (firstText next_response, trace ++ [next_params])
        else
          toolLoop client modelName tool_manager base_params fuel messages
            next_response (current_round + 1) (trace ++ [next_params])
      | Except.error e =>
        if current_round = 1 then
          (Except.ok ("Error during tool execution: " ++ e.str), trace ++ [next_params])
        else
          (Except.ok (_salvage_partial_response messages e.str), trace ++ [next_params])
    else (firstText current_response, trace)

/-- `AIGenerator._handle_sequential_tool_execution` (lines 123-216):
enters the round loop with `current_round = 1`, `max_rounds = 2`
(`fuel = 2`) and the copied initial message list. -/
def _handle_sequential_tool_execution (client : Client) (modelName : String)
    (initial_response : Response) (base_params : Request) (tool_manager : ToolManager)
    (trace : List Request) : Except Exn String × List Request :=
  toolLoop client modelName tool_manager base_params 2 base_params.messages
    initial_response 1 trace

/-- The `except` clauses of `generate_response` (lines 109-121). -/
def handleApiExcept : Exn → String
  | Exn.badRequest msg =>
    if strContains msg ("credit balance is too low") then
      "I\x27m sorry, but the chatbot is currently unavailable due to API credit exhaustion. Please contact the administrator to resolve this issue."
    else
      "I encountered an API configuration error. Please contact support with this message: " ++ msg
  | Exn.rateLimit _ =>
    "I\x27m receiving too many requests right now. Please wait a moment and try again."
  | Exn.apiError msg =>
    "I\x27m experiencing technical difficulties with the AI service. Please try again later. Error: " ++ msg
  | Exn.other msg =>
    "An unexpected error occurred while processing your request: " ++ msg

/-- The `try` block of `generate_response` (lines 77-107): build the system
content and initial parameters (the `tools` key only for a non-empty tools
list, Python truthiness), issue the initial call, and either hand off to
the tool loop (when `stop_reason == "tool_use"` and a tool manager is
given) or read the first text block.  An `Except.error` result is an
exception reaching the `except` clauses. -/
def generate_response_try (client : Client) (modelName : String) (query : String)
    (conversation_history : Option String) (tools : Option (List ToolSchema))
    (tool_manager : Option ToolManager) : Except Exn String × List Request :=
  let system_content :=
    match conversation_history with
    | some h =>
      if h ≠ "" then SYSTEM_PROMPT ++ "\n\nPrevious conversation:\n" ++ h
      else SYSTEM_PROMPT
    | none => SYSTEM_PROMPT
  let api_params0 : Request :=
    { model := modelName, temperature := 0, max_tokens := 800,
      messages := [{ role := "user", content := MsgContent.str query }],
      system := system_content, tools := none, tool_choice := none }
  let api_params :=
    match tools with
    | some ts =>
      if ts ≠ [] then { api_params0 with tools := some ts, tool_choice := some "auto" }
      else api_params0
    | none => api_params0
  match client 0 with
  | Except.ok response =>
    match tool_manager with
    | some tm =>
      if response.stop_reason = "tool_use" then
        _handle_sequential_tool_execution client modelName response api_params tm
          [api_params]
      else (firstText response, [api_params])
    | none => (firstText response, [api_params])
  | Except.error e => (Except.error e, [api_params])

/-- `AIGenerator.generate_response` (lines 57-121): the whole `try` body
runs under the `except` clauses, so every raised exception is mapped to a
user-facing string.  Returns the result string together with the trace of
issued backend requests. -/
def generate_response (client : Client) (modelName : String) (query : String)
    (conversation_history : Option String) (tools : Option (List ToolSchema))
    (tool_manager : Option ToolManager) : String × List Request :=
  let r := generate_response_try client modelName query conversation_history tools
    tool_manager
  ((match r.1 with
    | Except.ok s => s
    | Except.error e => handleApiExcept e), r.2)

/-! ## Spec-side comparison definitions

These two definitions follow the specification's wording (not the code)
and are only used to compare the code's loops against them. -/

/-- Spec wording, §4.1 step 2: the result entry for one content block —
a `tool_use` block is dispatched by name and input to the registry and
yields one `"tool_result"` entry tagged with the block's id, its result
content being the tool's return value or, on an execution fault, a
descriptive error string; any other block yields nothing. -/
def toolResultSpec (tool_manager : ToolManager) : ContentBlock → Option ToolResult
  | ContentBlock.tool_use id name input =>
    some { ty := "tool_result", tool_use_id := id,
           content :=
             match tool_manager.execute_tool name input with
             | Except.ok tool_result => tool_result
             | Except.error e => "Tool execution error: " ++ e.str }
  | _ => none

/-- Spec wording, §4.1 failure semantics: the assistant-authored text of
non-trivial length (> 20 characters after stripping) offered by one
message, if any — the salvage pass looks for the most recent such text. -/
def assistantTextSpec (message : Message) : Option String :=
  if message.role = "assistant" then
    match message.content with
    | MsgContent.blocks content => firstLongText content
    | MsgContent.str content =>
      if pyLen (pyStrip content) > 20 then some content else none
    | MsgContent.tool_results _ => none
  else none

/-! ## Concrete data used by witnesses and counterexamples -/

/-- A model response requesting one tool call. -/
def demoToolUseResponse : Response :=
  { stop_reason := "tool_use",
    content := [ContentBlock.tool_use ("tu1") ("search_course_content") ("q")] }

/-- A terminal textual model response. -/
def demoTextResponse : Response :=
  { stop_reason := "end_turn", content := [ContentBlock.text ("the final answer text")] }

/-- A tool manager whose tools always succeed. -/
def demoToolManager : ToolManager := { execute_tool := fun _ _ => Except.ok ("tool output") }

/-- A backend that always requests yet another tool round. -/
def alwaysToolUseClient : Client := fun _ => Except.ok demoToolUseResponse

/-- A backend requesting tool use on the first two calls, then answering. -/
def twoRoundClient : Client := fun n =>
  if n < 2 then Except.ok demoToolUseResponse else Except.ok demoTextResponse

/-- A backend requesting tool use once, then answering. -/
def oneRoundClient : Client := fun n =>
  if n = 0 then Except.ok demoToolUseResponse else Except.ok demoTextResponse

/-! ## Helper lemmas -/

theorem string_data_append (a b : String) : (a ++ b).data = a.data ++ b.data := by
  cases a; cases b; rfl

theorem string_eq_of_data_eq (a b : String) (h : a.data = b.data) : a = b := by
  cases a; cases b; exact congrArg String.mk h

theorem string_append_ne_of_ne (a b c : String) (h : b ≠ c) : a ++ b ≠ a ++ c := by
  intro hc
  apply h
  apply string_eq_of_data_eq
  have hd : a.data ++ b.data = a.data ++ c.data := by
    rw [← string_data_append, ← string_data_append, hc]
  exact List.append_cancel_left hd

theorem string_ne_of_take5_ne (s t : String)
    (h : s.data.take 5 ≠ t.data.take 5) : s ≠ t := by
  intro hc; exact h (by rw [hc])

theorem take5_append (p m : String) (h : 5 ≤ p.data.length) :
    (p ++ m).data.take 5 = p.data.take 5 := by
  rw [string_data_append]
  exact List.take_append_of_le_length h

theorem get?_append_cons (l1 l2 : List Request) (x : Request) :
    (l1 ++ x :: l2).get? l1.length = some x := by
  induction l1 with
  | nil => rfl
  | cons a l ih => simpa using ih

/-- The trace only ever grows, by at most one request per unit of fuel
(i.e. at most one `messages.create` call per admissible loop round). -/
theorem toolLoop_trace_bound (client : Client) (modelName : String) (tm : ToolManager)
    (bp : Request) :
    ∀ (fuel : Nat) (msgs : List Message) (resp : Response) (r : Nat)
      (trace : List Request),
    ∃ ext : List Request,
      (toolLoop client modelName tm bp fuel msgs resp r trace).2 = trace ++ ext ∧
      ext.length ≤ fuel := by
  intro fuel
  induction fuel with
  | zero =>
    intro msgs resp r trace
    exact ⟨[], by simp [toolLoop], by simp⟩
  | succ n ih =>
    intro msgs resp r trace
    by_cases h : resp.stop_reason = "tool_use"
    · cases hc : client trace.length with
      | ok resp' =>
        by_cases hs : resp'.stop_reason ≠ "tool_use"
        · refine ⟨[buildNextParams modelName bp (roundStep tm resp msgs) r 2], ?_, ?_⟩
          · simp [toolLoop, h, hc, hs]
          · simp
        · push_neg at hs
          obtain ⟨ext, hext, hlen⟩ :=
            ih (roundStep tm resp msgs) resp' (r + 1)
              (trace ++ [buildNextParams modelName bp (roundStep tm resp msgs) r 2])
          refine ⟨[buildNextParams modelName bp (roundStep tm resp msgs) r 2] ++ ext,
            ?_, ?_⟩
          · simp [toolLoop, h, hc, hs, hext]
          · simp only [List.length_append, List.length_cons, List.length_nil]
            omega
      | error e =>
        refine ⟨[buildNextParams modelName bp (roundStep tm resp msgs) r 2], ?_, ?_⟩
        · by_cases hr : r = 1 <;> simp [toolLoop, h, hc, hr]
        · simp
    · exact ⟨[], by simp [toolLoop, h], by simp⟩

/-- The per-round execution loop, characterised block by block: each
`tool_use` block contributes exactly its own tagged result, in emission
order; everything else contributes nothing. -/
theorem execute_tool_calls_eq (tm : ToolManager) (blocks : List ContentBlock) :
    execute_tool_calls tm blocks = blocks.filterMap (toolResultSpec tm) := by
  induction blocks with
  | nil => rfl
  | cons b rest ih =>
    cases b <;> simp [execute_tool_calls, toolResultSpec, List.filterMap_cons, ih]

/-- The salvage scan returns the first qualifying assistant text of the
scanned list (the code scans `reversed(messages)`). -/
theorem salvageScan_eq (err : String) (l : List Message) :
    salvageScan err l =
      match l.findSome? assistantTextSpec with
      | some t => t ++ interruptNote err
      | none =>
        "I encountered an error while processing your request and was unable to provide a complete response: " ++
          err := by
  induction l with
  | nil => rfl
  | cons m rest ih =>
    by_cases hr : m.role = "assistant"
    · cases hmc : m.content with
      | blocks content =>
        cases hf : firstLongText content with
        | some t => simp [salvageScan, hr, hmc, List.findSome?_cons, assistantTextSpec, hf]
        | none => simp [salvageScan, hr, hmc, List.findSome?_cons, assistantTextSpec, hf, ih]
      | str content =>
        by_cases hl : pyLen (pyStrip content) > 20
        · simp [salvageScan, hr, hmc, List.findSome?_cons, assistantTextSpec, hl]
        · simp [salvageScan, hr, hmc, List.findSome?_cons, assistantTextSpec, hl, ih]
      | tool_results results =>
        simp [salvageScan, hr, hmc, List.findSome?_cons, assistantTextSpec, ih]
    · simp [salvageScan, hr, List.findSome?_cons, assistantTextSpec, ih]

/-- A base-parameter record as built by `generate_response` for a
tools-carrying call (used to instantiate loop-level theorems). -/
def demoRequest : Request :=
  { model := "m", temperature := 0, max_tokens := 800,
    messages := [{ role := "user", content := MsgContent.str ("q") }],
    system := "S", tools := some [("s")], tool_choice := some "auto" }

/-- A response with one succeeding and one failing tool call. -/
def mixedToolUseResponse : Response :=
  { stop_reason := "tool_use",
    content := [ContentBlock.tool_use ("a") ("good_tool") ("x"),
                ContentBlock.tool_use ("b") ("bad_tool") ("y")] }

/-- A tool manager whose `bad_tool` raises and whose other tools succeed. -/
def mixedToolManager : ToolManager :=
  { execute_tool := fun name _ =>
      if name = "bad_tool" then Except.error (Exn.other ("tool blew up"))
      else Except.ok ("good result") }

/-- Bound for the tool loop as entered by `generate_response`:
at most 2 requests are added to the trace. -/
theorem handle_seq_trace_bound (client : Client) (modelName : String)
    (initial_response : Response) (bp : Request) (tm : ToolManager)
    (trace : List Request) :
    (_handle_sequential_tool_execution client modelName initial_response bp tm
      trace).2.length ≤ trace.length + 2 := by
  obtain ⟨ext, hext, hlen⟩ :=
    toolLoop_trace_bound client modelName tm bp 2 bp.messages initial_response 1 trace
  simp only [_handle_sequential_tool_execution, hext, List.length_append]
  omega

/-- C1: once the first model response requests tool use, the orchestration
makes at most 2 additional `messages.create` calls after the initial one —
at most 3 backend calls in total — no matter how many consecutive
responses come back with stop reason `"tool_use"`. -/
theorem c1_backend_call_cap (client : Client) (modelName query : String)
    (conversation_history : Option String) (tools : Option (List ToolSchema))
    (tool_manager : Option ToolManager) (r0 : Response)
    (h0 : client 0 = Except.ok r0) (hstop : r0.stop_reason = "tool_use") :
    (generate_response client modelName query conversation_history tools
      tool_manager).2.length ≤ 3 := by
  cases tool_manager with
  | none =>
    simp [generate_response, generate_response_try, h0]
  | some tm =>
    simp only [generate_response, generate_response_try, h0, hstop, if_true]
    exact le_trans (handle_seq_trace_bound _ _ _ _ _ _) (by simp)

/-- C1 witness: a backend that keeps requesting tool rounds forever still
produces a trace of at most 3 calls. -/
theorem c1_backend_call_cap_witness :
    (generate_response alwaysToolUseClient "m" "q" none (some [("s")])
      (some demoToolManager)).2.length ≤ 3 :=
  c1_backend_call_cap alwaysToolUseClient "m" "q" none (some [("s")])
    (some demoToolManager) demoToolUseResponse rfl rfl

/-- C2: in the round loop, the next `messages.create` call is exactly the
one built by `buildNextParams` for the current round, and that request
carries the tool schemas with auto tool choice when the round counter is
strictly below `max_rounds = 2`, and carries no `tools` (and no
`tool_choice`) key at all when the counter has reached 2. -/
theorem c2_tools_offered_by_round (client : Client) (modelName : String)
    (tm : ToolManager) (bp : Request) (fuel : Nat) (msgs : List Message)
    (resp : Response) (r : Nat) (trace : List Request)
    (hstop : resp.stop_reason = "tool_use") :
    (toolLoop client modelName tm bp (fuel + 1) msgs resp r trace).2.get?
        trace.length =
      some (buildNextParams modelName bp (roundStep tm resp msgs) r 2) ∧
    ((buildNextParams modelName bp (roundStep tm resp msgs) r 2).tools,
      (buildNextParams modelName bp (roundStep tm resp msgs) r 2).tool_choice) =
      (if r < 2 then (some (Option.getD bp.tools []), some "auto")
       else (none, none)) := by
  constructor
  · cases hc : client trace.length with
    | ok resp' =>
      by_cases hs : resp'.stop_reason ≠ "tool_use"
      · simp only [toolLoop, hstop, if_true, hc]
        rw [if_pos hs]
        exact get?_append_cons trace [] _
      · push_neg at hs
        obtain ⟨ext, hext, _⟩ :=
          toolLoop_trace_bound client modelName tm bp fuel (roundStep tm resp msgs)
            resp' (r + 1)
            (trace ++ [buildNextParams modelName bp (roundStep tm resp msgs) r 2])
        simp only [toolLoop, hstop, if_true, hc]
        rw [if_neg (not_not_intro hs), hext, List.append_assoc]
        exact get?_append_cons trace ext _
    | error e =>
      by_cases hr : r = 1
      · simp only [toolLoop, hstop, if_true, hc, hr, ite_true]
        exact get?_append_cons trace [] _
      · simp only [toolLoop, hstop, if_true, hc, hr, ite_false]
        exact get?_append_cons trace [] _
  · by_cases hlt : r < 2 <;> simp [buildNextParams, hlt]

/-- C2 witness at round 1 (tools and auto tool choice offered). -/
theorem c2_tools_offered_by_round_witness :
    (toolLoop oneRoundClient "m" demoToolManager demoRequest 2 []
        demoToolUseResponse 1 []).2.get? 0 =
      some (buildNextParams "m" demoRequest
        (roundStep demoToolManager demoToolUseResponse []) 1 2) ∧
    ((buildNextParams "m" demoRequest
        (roundStep demoToolManager demoToolUseResponse []) 1 2).tools,
      (buildNextParams "m" demoRequest
        (roundStep demoToolManager demoToolUseResponse []) 1 2).tool_choice) =
      (if 1 < 2 then (some (Option.getD demoRequest.tools []), some "auto")
       else (none, none)) :=
  c2_tools_offered_by_round oneRoundClient "m" demoToolManager demoRequest 1 []
    demoToolUseResponse 1 [] rfl

/-- C3: when the response to the second backend call (the one following the
first tool round) does not request tool use, the loop stops — exactly two
backend calls in total — and that response's first text block is the
result. -/
theorem c3_early_termination (client : Client) (modelName query : String)
    (hist : Option String) (tools : Option (List ToolSchema)) (tm : ToolManager)
    (r0 r1 : Response) (t : String)
    (h0 : client 0 = Except.ok r0) (hstop : r0.stop_reason = "tool_use")
    (h1 : client 1 = Except.ok r1) (hs1 : r1.stop_reason ≠ "tool_use")
    (ht : firstText r1 = Except.ok t) :
    (generate_response client modelName query hist tools (some tm)).1 = t ∧
    (generate_response client modelName query hist tools (some tm)).2.length = 2 := by
  refine ⟨?_, ?_⟩ <;>
    simp [generate_response, generate_response_try,
      _handle_sequential_tool_execution, toolLoop, h0, hstop, h1, hs1, ht]

/-- C3 witness: one tool round, then a plain answer — two calls, answer
returned verbatim. -/
theorem c3_early_termination_witness :
    (generate_response oneRoundClient "m" "q" none (some [("s")])
      (some demoToolManager)).1 = "the final answer text" ∧
    (generate_response oneRoundClient "m" "q" none (some [("s")])
      (some demoToolManager)).2.length = 2 :=
  c3_early_termination oneRoundClient "m" "q" none (some [("s")]) demoToolManager
    demoToolUseResponse demoTextResponse "the final answer text" rfl rfl rfl
    (by decide) rfl

/-- C4: each `tool_use` block of a round is dispatched to the registry by
its name and input and contributes exactly one tagged result, in emission
order; a block whose execution raises contributes the descriptive string
`"Tool execution error: " ++ str(e)` instead of aborting, so every other
block's result is still produced (the round's result list is total). -/
theorem c4_tool_fault_isolation (tm : ToolManager) (blocks : List ContentBlock) :
    execute_tool_calls tm blocks = blocks.filterMap (toolResultSpec tm) ∧
    (execute_tool_calls tm blocks).length =
      (blocks.filter (fun b =>
        match b with
        | ContentBlock.tool_use _ _ _ => true
        | _ => false)).length := by
  refine ⟨execute_tool_calls_eq tm blocks, ?_⟩
  induction blocks with
  | nil => rfl
  | cons b rest ih =>
    cases b <;>
      simp [execute_tool_calls, List.filter_cons, ih]

/-- C5: one tool round extends the running message list with exactly two
messages — the assistant message carrying the model's full content block
list, then a single user message bundling one `"tool_result"` entry per
tool-use block, tagged with that block's id and its result content, in
emission order. -/
theorem c5_round_message_extension (tm : ToolManager) (resp : Response)
    (msgs : List Message)
    (hne : execute_tool_calls tm resp.content ≠ []) :
    roundStep tm resp msgs =
      msgs ++
        [{ role := "assistant", content := MsgContent.blocks resp.content },
         { role := "user",
           content := MsgContent.tool_results
             (resp.content.filterMap (toolResultSpec tm)) }] := by
  simp only [roundStep]
  rw [if_pos hne, execute_tool_calls_eq]
  simp

/-- C5 witness: a round with one succeeding and one failing tool call
appends the assistant message and the bundled results message. -/
theorem c5_round_message_extension_witness :
    roundStep mixedToolManager mixedToolUseResponse [] =
      [] ++
        [{ role := "assistant",
           content := MsgContent.blocks mixedToolUseResponse.content },
         { role := "user",
           content := MsgContent.tool_results
             (mixedToolUseResponse.content.filterMap
               (toolResultSpec mixedToolManager)) }] :=
  c5_round_message_extension mixedToolManager mixedToolUseResponse [] (by decide)

/-- C6: when the backend call inside the loop raises, the loop yields the
error-annotated string when the round counter is 1, and otherwise the
salvage result: the most recent assistant message of the accumulated list
offering a text longer than 20 characters after stripping yields that
text with an interruption note, and a generic failure message embedding
the error is returned when no such text exists. -/
theorem c6_midloop_fault_salvage (client : Client) (modelName : String)
    (tm : ToolManager) (bp : Request) (fuel : Nat) (msgs : List Message)
    (resp : Response) (r : Nat) (trace : List Request) (e : Exn)
    (hstop : resp.stop_reason = "tool_use")
    (hc : client trace.length = Except.error e) :
    (toolLoop client modelName tm bp (fuel + 1) msgs resp r trace).1 =
      Except.ok
        (if r = 1 then "Error during tool execution: " ++ e.str
         else
           match (roundStep tm resp msgs).reverse.findSome? assistantTextSpec with
           | some t => t ++ interruptNote e.str
           | none =>
             "I encountered an error while processing your request and was unable to provide a complete response: " ++
               e.str) := by
  by_cases hr : r = 1
  · simp [toolLoop, hstop, hc, hr]
  · simp only [toolLoop, hstop, if_true, hc, hr, ite_false]
    rw [_salvage_partial_response, salvageScan_eq]

/-- C6 witness: a fault at round 2, after a round whose response carried a
long text block, salvages exactly that text with the interruption note. -/
theorem c6_midloop_fault_salvage_witness :
    (toolLoop (fun _ => Except.error (Exn.apiError ("boom"))) "m" demoToolManager
        demoRequest 1 [] mixedToolUseResponse 2 []).1 =
      Except.ok
        (if 2 = 1 then "Error during tool execution: " ++ (Exn.apiError ("boom")).str
         else
           match (roundStep demoToolManager mixedToolUseResponse []).reverse.findSome?
               assistantTextSpec with
           | some t => t ++ interruptNote (Exn.apiError ("boom")).str
           | none =>
             "I encountered an error while processing your request and was unable to provide a complete response: " ++
               (Exn.apiError ("boom")).str) :=
  c6_midloop_fault_salvage (fun _ => Except.error (Exn.apiError ("boom"))) "m"
    demoToolManager demoRequest 0 [] mixedToolUseResponse 2 []
    (Exn.apiError ("boom")) rfl rfl

/-- C7 counterexample: run two full tool rounds.  The third backend call
(trace index 2) is the one issued without a `tools` key, yet its system
prompt is NOT the base content followed by the no-rounds-left directive
("No more tool calls available. Provide your final answer based on all
previous information.") — the loop builds that call's prompt with
`current_round = 2`, which selects the final-round ("This is your final
tool call opportunity") guidance instead; the no-rounds-left branch of
`_build_round_system_prompt` is unreachable. -/
theorem c7_no_tools_call_guidance_counterexample :
    ((generate_response twoRoundClient "m" "q" none (some [("s")])
        (some demoToolManager)).2.get? 2).map Request.tools = some none ∧
    ¬ (((generate_response twoRoundClient "m" "q" none (some [("s")])
        (some demoToolManager)).2.get? 2).map Request.system =
      some (SYSTEM_PROMPT ++
        "\n\nRound 2/2: No more tool calls available. Provide your final answer based on all previous information.")) := by
  constructor
  · rfl
  · have h : ((generate_response twoRoundClient "m" "q" none (some [("s")])
        (some demoToolManager)).2.get? 2).map Request.system =
        some (SYSTEM_PROMPT ++
          ("\n\nRound " ++ toString (2 : Nat) ++ "/" ++ toString (2 : Nat) ++
            ": This is your final tool call opportunity. Make it count - be specific and targeted based on previous results.")) := rfl
    rw [h]
    intro hc
    exact string_append_ne_of_ne SYSTEM_PROMPT _ _ (by decide) (Option.some.inj hc)

/-- C7 (amended): every re-issued model call carries a system prompt equal
to the base system content concatenated with a round directive stating the
current round index and the maximum, with guidance differing by round —
but the call issued without tool schemas (round counter 2) carries the
final-round guidance ("This is your final tool call opportunity..."),
not the no-rounds-left guidance, which is never selected. -/
theorem c7_round_system_prompt_amended (modelName : String) (bp : Request)
    (msgs : List Message) (r : Nat) (hr : r = 1 ∨ r = 2) :
    (buildNextParams modelName bp msgs r 2).system =
      bp.system ++
        (if r = 1 then
          "\n\nRound 1/2: This is your first opportunity to use tools. Consider if you need broad or specific information."
        else
          "\n\nRound 2/2: This is your final tool call opportunity. Make it count - be specific and targeted based on previous results.") ∧
    ((buildNextParams modelName bp msgs r 2).tools = none ↔ r = 2) := by
  rcases hr with hr | hr <;> subst hr
  · constructor
    · have hg : ("\n\nRound " ++ toString (1 : Nat) ++ "/" ++ toString (2 : Nat) ++
          ": This is your first opportunity to use tools. Consider if you need broad or specific information.") =
          "\n\nRound 1/2: This is your first opportunity to use tools. Consider if you need broad or specific information." := by
        decide
      simp [buildNextParams, _build_round_system_prompt, hg]
    · simp [buildNextParams]
  · constructor
    · have hg : ("\n\nRound " ++ toString (2 : Nat) ++ "/" ++ toString (2 : Nat) ++
          ": This is your final tool call opportunity. Make it count - be specific and targeted based on previous results.") =
          "\n\nRound 2/2: This is your final tool call opportunity. Make it count - be specific and targeted based on previous results." := by
        decide
      simp [buildNextParams, _build_round_system_prompt, hg]
    · simp [buildNextParams]

/-- C7 witness: the round-2 (tool-less) call's system prompt carries the
final-round guidance. -/
theorem c7_round_system_prompt_amended_witness :
    (buildNextParams "m" demoRequest [] 2 2).system =
      demoRequest.system ++
        (if 2 = 1 then
          "\n\nRound 1/2: This is your first opportunity to use tools. Consider if you need broad or specific information."
        else
          "\n\nRound 2/2: This is your final tool call opportunity. Make it count - be specific and targeted based on previous results.") ∧
    ((buildNextParams "m" demoRequest [] 2 2).tools = none ↔ 2 = 2) :=
  c7_round_system_prompt_amended "m" demoRequest [] 2 (Or.inr rfl)

/-- C8 counterexample: a query with NO tools supplied (`tools = None`) but
a tool manager present, against a backend whose first response claims
`tool_use`: `generate_response` enters the tool loop and makes a second
backend call, so "no tools supplied implies exactly one backend call"
fails on the code (the loop guard tests the tool manager, not the tools
argument). -/
theorem c8_no_tools_single_call_counterexample :
    (generate_response oneRoundClient "m" "q" none none
      (some demoToolManager)).2.length = 2 ∧
    (generate_response oneRoundClient "m" "q" none none
      (some demoToolManager)).2.length ≠ 1 := by
  have h : (generate_response oneRoundClient "m" "q" none none
      (some demoToolManager)).2.length = 2 := rfl
  exact ⟨h, by rw [h]; decide⟩

/-- C8 (amended): when no TOOL MANAGER is supplied, or the first model
response's stop reason is not `"tool_use"`, `generate_response` makes
exactly one backend call and returns that response's first text block
verbatim.  (The original "no tools supplied" condition is insufficient:
the loop guard tests `tool_manager`, not `tools`.) -/
theorem c8_single_call_amended (client : Client) (modelName query : String)
    (hist : Option String) (tools : Option (List ToolSchema))
    (tool_manager : Option ToolManager) (r0 : Response) (t : String)
    (h0 : client 0 = Except.ok r0)
    (hcond : r0.stop_reason ≠ "tool_use" ∨ tool_manager = none)
    (ht : firstText r0 = Except.ok t) :
    (generate_response client modelName query hist tools tool_manager).1 = t ∧
    (generate_response client modelName query hist tools tool_manager).2.length = 1 := by
  cases tool_manager with
  | none =>
    refine ⟨?_, ?_⟩ <;> simp [generate_response, generate_response_try, h0, ht]
  | some tm =>
    rcases hcond with hs | hnone
    · refine ⟨?_, ?_⟩ <;>
        simp [generate_response, generate_response_try, h0, hs, ht]
    · exact absurd hnone (by simp)

/-- C8 witness: a plain textual first response with tools and manager
supplied — one call, text returned verbatim. -/
theorem c8_single_call_amended_witness :
    (generate_response (fun _ => Except.ok demoTextResponse) "m" "q" none
      (some [("s")]) (some demoToolManager)).1 = "the final answer text" ∧
    (generate_response (fun _ => Except.ok demoTextResponse) "m" "q" none
      (some [("s")]) (some demoToolManager)).2.length = 1 :=
  c8_single_call_amended (fun _ => Except.ok demoTextResponse) "m" "q" none
    (some [("s")]) (some demoToolManager) demoTextResponse "the final answer text"
    rfl (Or.inl (by decide)) rfl

/-- The credit-exhaustion message (line 111). -/
def creditMsg : String :=
  "I\x27m sorry, but the chatbot is currently unavailable due to API credit exhaustion. Please contact the administrator to resolve this issue."

/-- The rate-limit message (line 115). -/
def rateLimitMsg : String :=
  "I\x27m receiving too many requests right now. Please wait a moment and try again."

/-- The head of the bad-request (configuration) message (line 113). -/
def configMsgHead : String :=
  "I encountered an API configuration error. Please contact support with this message: "

/-- The head of the generic API-fault message (line 117). -/
def apiErrorMsgHead : String :=
  "I\x27m experiencing technical difficulties with the AI service. Please try again later. Error: "

/-- The head of the unclassified-fault message (lines 119-121). -/
def unexpectedMsgHead : String :=
  "An unexpected error occurred while processing your request: "

/-- C9: a fault raised by the initial backend call is classified into the
four categories (rate-limit; bad-request with the credit-exhaustion
variant matched by the substring "credit balance is too low"; generic API
fault; unclassified) and mapped to the corresponding user-facing message
— the five possible messages are pairwise distinct, and the raw exception
is never propagated on this path. -/
theorem c9_initial_fault_classification (client : Client) (modelName query : String)
    (hist : Option String) (tools : Option (List ToolSchema))
    (tool_manager : Option ToolManager) (e : Exn)
    (h0 : client 0 = Except.error e) :
    (generate_response client modelName query hist tools tool_manager).1 =
      handleApiExcept e ∧
    handleApiExcept (Exn.rateLimit e.str) = rateLimitMsg ∧
    (strContains e.str ("credit balance is too low") = true →
      handleApiExcept (Exn.badRequest e.str) = creditMsg) ∧
    (strContains e.str ("credit balance is too low") = false →
      handleApiExcept (Exn.badRequest e.str) = configMsgHead ++ e.str) ∧
    handleApiExcept (Exn.apiError e.str) = apiErrorMsgHead ++ e.str ∧
    handleApiExcept (Exn.other e.str) = unexpectedMsgHead ++ e.str ∧
    creditMsg ≠ rateLimitMsg ∧
    creditMsg ≠ configMsgHead ++ e.str ∧
    creditMsg ≠ apiErrorMsgHead ++ e.str ∧
    creditMsg ≠ unexpectedMsgHead ++ e.str ∧
    rateLimitMsg ≠ configMsgHead ++ e.str ∧
    rateLimitMsg ≠ apiErrorMsgHead ++ e.str ∧
    rateLimitMsg ≠ unexpectedMsgHead ++ e.str ∧
    configMsgHead ++ e.str ≠ apiErrorMsgHead ++ e.str ∧
    configMsgHead ++ e.str ≠ unexpectedMsgHead ++ e.str ∧
    apiErrorMsgHead ++ e.str ≠ unexpectedMsgHead ++ e.str := by
  refine ⟨?_, rfl, ?_, ?_, rfl, rfl, by decide, ?_, ?_, ?_, ?_, ?_, ?_, ?_, ?_, ?_⟩
  · simp [generate_response, generate_response_try, h0]
  · intro hc; simp [handleApiExcept, hc, creditMsg]
  · intro hc; simp [handleApiExcept, hc, configMsgHead]
  · apply string_ne_of_take5_ne
    rw [take5_append _ _ (by decide)]
    decide
  · apply string_ne_of_take5_ne
    rw [take5_append _ _ (by decide)]
    decide
  · apply string_ne_of_take5_ne
    rw [take5_append _ _ (by decide)]
    decide
  · apply string_ne_of_take5_ne
    rw [take5_append _ _ (by decide)]
    decide
  · apply string_ne_of_take5_ne
    rw [take5_append _ _ (by decide)]
    decide
  · apply string_ne_of_take5_ne
    rw [take5_append _ _ (by decide)]
    decide
  · apply string_ne_of_take5_ne
    rw [take5_append _ _ (by decide), take5_append _ _ (by decide)]
    decide
  · apply string_ne_of_take5_ne
    rw [take5_append _ _ (by decide), take5_append _ _ (by decide)]
    decide
  · apply string_ne_of_take5_ne
    rw [take5_append _ _ (by decide), take5_append _ _ (by decide)]
    decide

/-- C9 witness: a generic API fault on the initial call is mapped through
the classifier, whose five user-facing messages are pairwise distinct. -/
theorem c9_initial_fault_classification_witness :
    (generate_response (fun _ => Except.error (Exn.apiError ("down"))) "m" "q" none
        none none).1 = handleApiExcept (Exn.apiError ("down")) ∧
    handleApiExcept (Exn.rateLimit (Exn.apiError ("down")).str) = rateLimitMsg ∧
    (strContains (Exn.apiError ("down")).str ("credit balance is too low") = true →
      handleApiExcept (Exn.badRequest (Exn.apiError ("down")).str) = creditMsg) ∧
    (strContains (Exn.apiError ("down")).str ("credit balance is too low") = false →
      handleApiExcept (Exn.badRequest (Exn.apiError ("down")).str) =
        configMsgHead ++ (Exn.apiError ("down")).str) ∧
    handleApiExcept (Exn.apiError (Exn.apiError ("down")).str) =
      apiErrorMsgHead ++ (Exn.apiError ("down")).str ∧
    handleApiExcept (Exn.other (Exn.apiError ("down")).str) =
      unexpectedMsgHead ++ (Exn.apiError ("down")).str ∧
    creditMsg ≠ rateLimitMsg ∧
    creditMsg ≠ configMsgHead ++ (Exn.apiError ("down")).str ∧
    creditMsg ≠ apiErrorMsgHead ++ (Exn.apiError ("down")).str ∧
    creditMsg ≠ unexpectedMsgHead ++ (Exn.apiError ("down")).str ∧
    rateLimitMsg ≠ configMsgHead ++ (Exn.apiError ("down")).str ∧
    rateLimitMsg ≠ apiErrorMsgHead ++ (Exn.apiError ("down")).str ∧
    rateLimitMsg ≠ unexpectedMsgHead ++ (Exn.apiError ("down")).str ∧
    configMsgHead ++ (Exn.apiError ("down")).str ≠
      apiErrorMsgHead ++ (Exn.apiError ("down")).str ∧
    configMsgHead ++ (Exn.apiError ("down")).str ≠
      unexpectedMsgHead ++ (Exn.apiError ("down")).str ∧
    apiErrorMsgHead ++ (Exn.apiError ("down")).str ≠
      unexpectedMsgHead ++ (Exn.apiError ("down")).str :=
  c9_initial_fault_classification (fun _ => Except.error (Exn.apiError ("down")))
    "m" "q" none none none (Exn.apiError ("down")) rfl

/-- C10: `generate_response` is total at its public boundary — whatever
the backend oracle and tool manager do (including raising on any call,
and including the final `content[0].text` read failing inside the loop),
it returns a string: either the try-body's normal result, or the handler
image of the exception the try body raised; a raw exception never reaches
the caller. -/
theorem c10_total_boundary (client : Client) (modelName query : String)
    (hist : Option String) (tools : Option (List ToolSchema))
    (tool_manager : Option ToolManager) :
    ∃ s : String,
      (generate_response client modelName query hist tools tool_manager).1 = s ∧
      ((generate_response_try client modelName query hist tools tool_manager).1 =
          Except.ok s ∨
        ∃ e : Exn,
          (generate_response_try client modelName query hist tools tool_manager).1 =
            Except.error e ∧ s = handleApiExcept e) := by
  cases hr : (generate_response_try client modelName query hist tools tool_manager).1
    with
  | ok s => exact ⟨s, by simp [generate_response, hr], Or.inl rfl⟩
  | error e =>
    exact ⟨handleApiExcept e, by simp [generate_response, hr], Or.inr ⟨e, rfl, rfl⟩⟩
